import Mathlib

/-!
Shallow embedding of `streamlit_authenticator/authenticate.py` (class
`Authenticator`), the orchestration core of a Cognito-backed login flow:
authorization-code extraction, token exchange, identity-token payload
decoding, and the session state persisted in an encrypted cookie store.

Modelling conventions:
- Python/JSON values are modelled by the inductive `StAuth.Json`.
- Python exceptions are modelled by `Except PyErr`: a `.error` value is a
  raised exception of the given class; `.ok` is normal return.  The
  source's `try/except (KeyError, TypeError)` blocks catch exactly those
  two constructors and let every other constructor propagate.
- The cookie store (`EncryptedCookieManager`, an external collaborator not
  part of this file's source) is modelled from the spec as a key-value map
  with pending (`data`) and flushed (`saved`) views; `save` flushes.
  `json.dumps`/`json.loads` at the store boundary are value-preserving, so
  the store holds `Json` values directly; `json.loads(None)` (the absent
  `.get` sentinel) raises `TypeError`, which is modelled explicitly.
- The network is an oracle supplied as input: the token endpoint maps an
  authorization code to a transport failure or an HTTP response whose body
  either fails JSON parsing or is a `Json` value, mirroring what
  `requests.post(...)`/`.json()` can produce.
- `base64.urlsafe_b64decode` and `json.loads` on the identity-token payload
  are implemented executably.  The JSON parser covers objects, arrays,
  strings (with escapes), integers, booleans and null; JSON floats and
  multi-byte UTF-8 payload bytes are outside the model (no claim touches
  them).
-/

namespace StAuth

/-- JSON/Python values as produced by `json.loads`.  Objects keep their
fields in source order; duplicate keys are resolved last-wins by every
lookup, matching Python dict construction. -/
inductive Json where
  | null
  | bool (b : Bool)
  | num (n : Int)
  | str (s : String)
  | arr (elems : List Json)
  | obj (fields : List (String × Json))
deriving Repr

mutual

/-- Structural equality test for `Json` (spelled out because instance
derivation does not handle the nested inductive). -/
def Json.beq : Json → Json → Bool
  | .null, .null => true
  | .bool a, .bool c => a == c
  | .num a, .num c => a == c
  | .str a, .str c => a == c
  | .arr xs, .arr ys => Json.beqList xs ys
  | .obj fs, .obj gs => Json.beqFields fs gs
  | _, _ => false

/-- Elementwise `Json.beq` on arrays. -/
def Json.beqList : List Json → List Json → Bool
  | [], [] => true
  | x :: xs, y :: ys => Json.beq x y && Json.beqList xs ys
  | _, _ => false

/-- Elementwise `Json.beq` on object field lists. -/
def Json.beqFields : List (String × Json) → List (String × Json) → Bool
  | [], [] => true
  | (k, v) :: fs, (l, w) :: gs => k == l && Json.beq v w && Json.beqFields fs gs
  | _, _ => false

end

mutual

theorem Json.beq_iff_eq : (a b : Json) → (Json.beq a b = true ↔ a = b)
  | .null, .null => by simp [Json.beq]
  | .bool a, .bool c => by simp [Json.beq]
  | .num a, .num c => by simp [Json.beq]
  | .str a, .str c => by simp [Json.beq]
  | .arr xs, .arr ys => by
    simp only [Json.beq, Json.arr.injEq]
    exact Json.beqList_iff_eq xs ys
  | .obj fs, .obj gs => by
    simp only [Json.beq, Json.obj.injEq]
    exact Json.beqFields_iff_eq fs gs
  | .null, .bool _ => by simp [Json.beq]
  | .null, .num _ => by simp [Json.beq]
  | .null, .str _ => by simp [Json.beq]
  | .null, .arr _ => by simp [Json.beq]
  | .null, .obj _ => by simp [Json.beq]
  | .bool _, .null => by simp [Json.beq]
  | .bool _, .num _ => by simp [Json.beq]
  | .bool _, .str _ => by simp [Json.beq]
  | .bool _, .arr _ => by simp [Json.beq]
  | .bool _, .obj _ => by simp [Json.beq]
  | .num _, .null => by simp [Json.beq]
  | .num _, .bool _ => by simp [Json.beq]
  | .num _, .str _ => by simp [Json.beq]
  | .num _, .arr _ => by simp [Json.beq]
  | .num _, .obj _ => by simp [Json.beq]
  | .str _, .null => by simp [Json.beq]
  | .str _, .bool _ => by simp [Json.beq]
  | .str _, .num _ => by simp [Json.beq]
  | .str _, .arr _ => by simp [Json.beq]
  | .str _, .obj _ => by simp [Json.beq]
  | .arr _, .null => by simp [Json.beq]
  | .arr _, .bool _ => by simp [Json.beq]
  | .arr _, .num _ => by simp [Json.beq]
  | .arr _, .str _ => by simp [Json.beq]
  | .arr _, .obj _ => by simp [Json.beq]
  | .obj _, .null => by simp [Json.beq]
  | .obj _, .bool _ => by simp [Json.beq]
  | .obj _, .num _ => by simp [Json.beq]
  | .obj _, .str _ => by simp [Json.beq]
  | .obj _, .arr _ => by simp [Json.beq]

theorem Json.beqList_iff_eq : (xs ys : List Json) → (Json.beqList xs ys = true ↔ xs = ys)
  | [], [] => by simp [Json.beqList]
  | x :: xs, y :: ys => by
    simp only [Json.beqList, Bool.and_eq_true, List.cons.injEq]
    rw [Json.beq_iff_eq x y, Json.beqList_iff_eq xs ys]
  | [], _ :: _ => by simp [Json.beqList]
  | _ :: _, [] => by simp [Json.beqList]

theorem Json.beqFields_iff_eq :
    (fs gs : List (String × Json)) → (Json.beqFields fs gs = true ↔ fs = gs)
  | [], [] => by simp [Json.beqFields]
  | (k, v) :: fs, (l, w) :: gs => by
    simp only [Json.beqFields, Bool.and_eq_true, List.cons.injEq, Prod.mk.injEq, beq_iff_eq]
    rw [Json.beqFields_iff_eq fs gs]
    simp
  | [], _ :: _ => by simp [Json.beqFields]
  | _ :: _, [] => by simp [Json.beqFields]

end

instance : DecidableEq Json := fun a b =>
  decidable_of_iff (Json.beq a b = true) (Json.beq_iff_eq a b)

/-- Python exception classes that the modelled code can raise.
`jsonDecodeError` and `binasciiError` are `ValueError` subclasses in
Python; no `except` clause in the source catches `ValueError`, so keeping
them distinct is harmless. -/
inductive PyErr where
  | keyError
  | typeError
  | valueError
  | indexError
  | attributeError
  | jsonDecodeError
  | binasciiError
  | requestsError
deriving DecidableEq, Repr

/-- Last-wins lookup in a JSON object's field list: Python dict
construction lets later duplicate keys overwrite earlier ones. -/
def lookupLast (fields : List (String × Json)) (k : String) : Option Json :=
  fields.foldl (fun acc p => if p.1 = k then some p.2 else acc) none

/-- `j[k]` for a string key `k` — Python `__getitem__` semantics:
`KeyError` on a dict without the key, `TypeError` on every non-dict
(`"s"[k]`, `[..][k]`, `5[k]`, `None[k]`, `True[k]` all raise
`TypeError`). -/
def pyIndexStr (j : Json) (k : String) : Except PyErr Json :=
  match j with
  | .obj fields =>
    match lookupLast fields k with
    | some v => .ok v
    | none => .error .keyError
  | _ => .error .typeError

/-- Python truthiness of a JSON value (`if access_token:`). -/
def pyTruthy (j : Json) : Bool :=
  match j with
  | .null => false
  | .bool b => b
  | .num n => n != 0
  | .str s => s != ""
  | .arr xs => !xs.isEmpty
  | .obj fields => !fields.isEmpty

/-- Does `hay` start with `needle`? -/
def beginsWith : List Char → List Char → Bool
  | [], _ => true
  | _ :: _, [] => false
  | c :: cs, d :: ds => c == d && beginsWith cs ds

/-- Does `hay` contain `needle` as a contiguous substring?  (Python's
`needle in hay` on strings.) -/
def hasSub (needle : List Char) : List Char → Bool
  | [] => needle.isEmpty
  | d :: hay => beginsWith needle (d :: hay) || hasSub needle hay

/-- `k in j` for a string `k` — Python `in` semantics: key membership for
dicts, element membership for lists, substring test for strings,
`TypeError` for numbers/booleans/null. -/
def pyInStr (k : String) (j : Json) : Except PyErr Bool :=
  match j with
  | .obj fields => .ok (lookupLast fields k).isSome
  | .arr xs => .ok (xs.any (fun e => Json.beq e (Json.str k)))
  | .str s => .ok (hasSub k.data s.data)
  | _ => .error .typeError

/-- Modelled from the spec: the `EncryptedCookieManager` (SessionStore) is
an external collaborator not under this file's source; per spec section
4.1 it is a per-client key-value store with `has`/`get`/`set`/`save`.
`data` is the current (pending) view seen by reads; `saved` is the view
flushed to the client by `save()`.  Values are held at the JSON level:
`json.dumps` on write and `json.loads` on read are value-preserving. -/
structure CookieManager where
  data : String → Option Json
  saved : String → Option Json

/-- `cookie_manager[k] = v` (pending until the next `save`). -/
def CookieManager.set (cm : CookieManager) (k : String) (v : Json) : CookieManager :=
  ⟨fun q => if q = k then some v else cm.data q, cm.saved⟩

/-- `k in cookie_manager`. -/
def CookieManager.contains (cm : CookieManager) (k : String) : Bool :=
  (cm.data k).isSome

/-- `cookie_manager.save()`: flush all pending writes. -/
def CookieManager.save (cm : CookieManager) : CookieManager :=
  ⟨cm.data, cm.data⟩

/-- The store with no keys at all (a first visit). -/
def cmEmpty : CookieManager := ⟨fun _ => none, fun _ => none⟩

/-- `json.loads` applied to the result of `cookie_manager.get(k)`:
`json.loads(None)` raises `TypeError`; on a present value the
value-preserving load returns the stored JSON value. -/
def json_loads_get (v : Option Json) : Except PyErr Json :=
  match v with
  | none => .error .typeError
  | some j => .ok j

/-- Inbound request parameters as returned by
`st.experimental_get_query_params()`: a dict from parameter name to the
list of its values (the framework's query parser never produces an empty
value list, but the type admits one). -/
abbrev QueryParams := List (String × List String)

/-- `Authenticator.initialise_st_state_vars` (authenticate.py:36-48): each
of the two session keys is reset independently when it is absent or when
the request carries a `logout` parameter; then all writes are flushed. -/
def initialise_st_state_vars (params : QueryParams) (cm : CookieManager) : CookieManager :=
  let logout := params.lookup "logout"
  let cm1 := if !cm.contains "tokens" || logout.isSome
             then cm.set "tokens" (Json.obj []) else cm
  let cm2 := if !cm1.contains "user_groups" || logout.isSome
             then cm1.set "user_groups" (Json.arr []) else cm1
  cm2.save

/-- `Authenticator.get_auth_code` (authenticate.py:51-64):
`dict(params)["code"][0]` with `except (KeyError, TypeError)`.  A missing
`code` key raises `KeyError` (caught, yielding `""`); a present key with
an empty value list raises `IndexError` at `[0]`, which is not caught. -/
def get_auth_code (params : QueryParams) : Except PyErr String :=
  match params.lookup "code" with
  | none => .ok ""
  | some [] => .error .indexError
  | some (v :: _) => .ok v

/-- What `requests.post` on the token endpoint can produce: a raised
transport exception, or a response carrying an HTTP status code and a body
whose `.json()` either raises (non-JSON body) or yields a value. -/
inductive TokenEndpointResult where
  | transportFailure
  | response (status : Nat) (body : Except Unit Json)

/-- `Authenticator.get_user_tokens` (authenticate.py:67-107).  The
`requests.post` call and `.json()` are outside the `try`, so a transport
failure or a non-JSON body propagates; only `KeyError`/`TypeError` from
indexing the parsed body are caught, resetting both tokens to `""`.  The
HTTP status code is never inspected. -/
def get_user_tokens (endpoint : String → TokenEndpointResult) (auth_code : String) :
    Except PyErr (Json × Json) :=
  match endpoint auth_code with
  | .transportFailure => .error .requestsError
  | .response _ body =>
    match body with
    | .error _ => .error .jsonDecodeError
    | .ok j =>
      match pyIndexStr j "access_token", pyIndexStr j "id_token" with
      | .ok a, .ok i => .ok (a, i)
      | _, _ => .ok (Json.str "", Json.str "")

/-- `Authenticator.pad_base64` (authenticate.py:135-148). -/
def pad_base64 (data : String) : String :=
  let missing_padding := data.length % 4
  if missing_padding ≠ 0
  then data ++ String.mk (List.replicate (4 - missing_padding) '=')
  else data

/-- The 6-bit value of a standard base64 alphabet character. -/
def b64val (c : Char) : Option Nat :=
  if 'A' ≤ c ∧ c ≤ 'Z' then some (c.toNat - 65)
  else if 'a' ≤ c ∧ c ≤ 'z' then some (c.toNat - 97 + 26)
  else if '0' ≤ c ∧ c ≤ '9' then some (c.toNat - 48 + 52)
  else if c = '+' then some 62
  else if c = '/' then some 63
  else none

/-- Decode base64 quads to bytes; trailing `=` padding allowed only at the
end of the whole input; any leftover of fewer than four characters is
`binascii.Error` ("Invalid padding"). -/
def b64DecodeQuads : List Char → Except PyErr (List Nat)
  | [] => .ok []
  | c1 :: c2 :: c3 :: c4 :: rest =>
    match b64val c1, b64val c2 with
    | some v1, some v2 =>
      if c3 = '=' then
        if c4 = '=' ∧ rest = [] then .ok [v1 * 4 + v2 / 16] else .error .binasciiError
      else
        match b64val c3 with
        | some v3 =>
          if c4 = '=' then
            if rest = [] then .ok [v1 * 4 + v2 / 16, v2 % 16 * 16 + v3 / 4]
            else .error .binasciiError
          else
            match b64val c4 with
            | some v4 =>
              match b64DecodeQuads rest with
              | .ok tail =>
                .ok ([v1 * 4 + v2 / 16, v2 % 16 * 16 + v3 / 4, v3 % 4 * 64 + v4] ++ tail)
              | .error e => .error e
            | none => .error .binasciiError
        | none => .error .binasciiError
    | _, _ => .error .binasciiError
  | _ => .error .binasciiError

/-- `base64.urlsafe_b64decode` (bytes as `List Nat`): translate `-`/`_` to
`+`/`/`, discard characters outside the alphabet (CPython's non-strict
`binascii.a2b_base64` behaviour), then decode whole quads. -/
def urlsafe_b64decode (s : String) : Except PyErr (List Nat) :=
  let t := s.data.map (fun c => if c = '-' then '+' else if c = '_' then '/' else c)
  b64DecodeQuads (t.filter (fun c => (b64val c).isSome || c == '='))

/-- JSON whitespace. -/
def isJsonWs (c : Char) : Bool :=
  c == ' ' || c == '\t' || c == '\n' || c == '\r'

/-- Drop leading JSON whitespace. -/
def skipWs (cs : List Char) : List Char :=
  cs.dropWhile isJsonWs

/-- The value of a hexadecimal digit. -/
def hexVal (c : Char) : Option Nat :=
  if '0' ≤ c ∧ c ≤ '9' then some (c.toNat - 48)
  else if 'a' ≤ c ∧ c ≤ 'f' then some (c.toNat - 87)
  else if 'A' ≤ c ∧ c ≤ 'F' then some (c.toNat - 55)
  else none

/-- Body of a JSON string literal after the opening quote: returns the
decoded string and the input after the closing quote.  Handles the
single-character escapes and `\uXXXX`. -/
def parseStrBody (acc : List Char) : List Char → Option (String × List Char)
  | [] => none
  | c :: rest =>
    if c = '"' then some (String.mk acc.reverse, rest)
    else if c = '\\' then
      match rest with
      | [] => none
      | e :: rest2 =>
        if e = '"' then parseStrBody ('"' :: acc) rest2
        else if e = '\\' then parseStrBody ('\\' :: acc) rest2
        else if e = '/' then parseStrBody ('/' :: acc) rest2
        else if e = 'b' then parseStrBody (Char.ofNat 8 :: acc) rest2
        else if e = 'f' then parseStrBody (Char.ofNat 12 :: acc) rest2
        else if e = 'n' then parseStrBody ('\n' :: acc) rest2
        else if e = 'r' then parseStrBody ('\r' :: acc) rest2
        else if e = 't' then parseStrBody ('\t' :: acc) rest2
        else if e = 'u' then
          match rest2 with
          | h1 :: h2 :: h3 :: h4 :: rest3 =>
            match hexVal h1, hexVal h2, hexVal h3, hexVal h4 with
            | some a, some b, some c, some d =>
              parseStrBody (Char.ofNat (a * 4096 + b * 256 + c * 16 + d) :: acc) rest3
            | _, _, _, _ => none
          | _ => none
        else none
    else parseStrBody (c :: acc) rest

/-- Leading run of decimal digits as a natural number (with the rest);
fails on no digits or when a float marker follows (JSON floats are outside
this model). -/
def parseDigits (acc : Nat) (sawDigit : Bool) : List Char → Option (Nat × List Char)
  | [] => if sawDigit then some (acc, []) else none
  | c :: rest =>
    if c.isDigit then parseDigits (acc * 10 + (c.toNat - 48)) true rest
    else if sawDigit then
      if c = '.' ∨ c = 'e' ∨ c = 'E' then none else some (acc, c :: rest)
    else none

mutual

/-- `json.loads` value parser (fuel-indexed to make the nesting recursion
structural; the top-level entry supplies ample fuel). -/
def parseVal : Nat → List Char → Option (Json × List Char)
  | 0, _ => none
  | Nat.succ fuel, cs0 =>
    match skipWs cs0 with
    | 'n' :: 'u' :: 'l' :: 'l' :: rest => some (Json.null, rest)
    | 't' :: 'r' :: 'u' :: 'e' :: rest => some (Json.bool true, rest)
    | 'f' :: 'a' :: 'l' :: 's' :: 'e' :: rest => some (Json.bool false, rest)
    | '"' :: rest =>
      match parseStrBody [] rest with
      | some (s, rest2) => some (Json.str s, rest2)
      | none => none
    | '[' :: rest => parseArrItems fuel rest
    | '-' :: rest =>
      match parseDigits 0 false rest with
      | some (n, rest2) => some (Json.num (-(n : Int)), rest2)
      | none => none
    | c :: rest =>
      if c = Char.ofNat 123 then parseObjItems fuel rest
      else if c.isDigit then
        match parseDigits 0 false (c :: rest) with
        | some (n, rest2) => some (Json.num (n : Int), rest2)
        | none => none
      else none
    | [] => none

/-- Array items after `[`. -/
def parseArrItems : Nat → List Char → Option (Json × List Char)
  | 0, _ => none
  | Nat.succ fuel, cs =>
    match skipWs cs with
    | ']' :: rest => some (Json.arr [], rest)
    | cs2 =>
      match parseVal fuel cs2 with
      | some (v, cs3) => parseArrRest fuel [v] cs3
      | none => none

/-- Array items after the first one. -/
def parseArrRest : Nat → List Json → List Char → Option (Json × List Char)
  | 0, _, _ => none
  | Nat.succ fuel, acc, cs =>
    match skipWs cs with
    | ']' :: rest => some (Json.arr acc.reverse, rest)
    | ',' :: rest =>
      match parseVal fuel rest with
      | some (v, cs2) => parseArrRest fuel (v :: acc) cs2
      | none => none
    | _ => none

/-- Object members after `{`. -/
def parseObjItems : Nat → List Char → Option (Json × List Char)
  | 0, _ => none
  | Nat.succ fuel, cs =>
    match skipWs cs with
    | [] => none
    | c :: rest =>
      if c = Char.ofNat 125 then some (Json.obj [], rest)
      else if c = '"' then
        match parseStrBody [] rest with
        | some (k, cs2) => parseObjValue fuel [] k cs2
        | none => none
      else none

/-- The `: value` part of an object member named `k`. -/
def parseObjValue : Nat → List (String × Json) → String → List Char →
    Option (Json × List Char)
  | 0, _, _, _ => none
  | Nat.succ fuel, acc, k, cs =>
    match skipWs cs with
    | ':' :: rest =>
      match parseVal fuel rest with
      | some (v, cs2) => parseObjRest fuel ((k, v) :: acc) cs2
      | none => none
    | _ => none

/-- Object members after the first one. -/
def parseObjRest : Nat → List (String × Json) → List Char → Option (Json × List Char)
  | 0, _, _ => none
  | Nat.succ fuel, acc, cs =>
    match skipWs cs with
    | [] => none
    | c :: rest =>
      if c = Char.ofNat 125 then some (Json.obj acc.reverse, rest)
      else if c = ',' then
        match skipWs rest with
        | '"' :: cs2 =>
          match parseStrBody [] cs2 with
          | some (k, cs3) => parseObjValue fuel acc k cs3
          | none => none
        | _ => none
      else none

end

/-- `json.loads` on payload bytes (decoded as 8-bit characters; multi-byte
UTF-8 is outside the model): parse one value and require only whitespace
after it. -/
def json_loads_bytes (bs : List Nat) : Except PyErr Json :=
  let cs := bs.map Char.ofNat
  match parseVal (2 * cs.length + 4) cs with
  | some (v, rest) => if skipWs rest = [] then .ok v else .error .jsonDecodeError
  | none => .error .jsonDecodeError

/-- Keys of a parsed JSON object in Python dict iteration order: first
occurrence position, duplicates collapsed. -/
def dedupKeys : List (String × Json) → List String
  | [] => []
  | (k, _) :: rest => k :: (dedupKeys rest).filter (fun q => q != k)

/-- Is a JSON value hashable as a Python dict key?  Lists and dicts are
unhashable (`TypeError`); everything else is fine. -/
def keyHashable (j : Json) : Bool :=
  match j with
  | .arr _ => false
  | .obj _ => false
  | _ => true

/-- One element of `dict(sequence)`: Python accepts any iterable of length
two — a two-element list (whose first entry must be hashable), a
two-character string (yielding its characters), or a two-key dict
(yielding its keys).  Non-iterables raise `TypeError`; iterables of the
wrong length raise `ValueError`. -/
def dictElem (j : Json) : Except PyErr (Json × Json) :=
  match j with
  | .arr [k, v] => if keyHashable k then .ok (k, v) else .error .typeError
  | .arr _ => .error .valueError
  | .str s =>
    match s.data with
    | [c, d] => .ok (Json.str (String.mk [c]), Json.str (String.mk [d]))
    | _ => .error .valueError
  | .obj fields =>
    match dedupKeys fields with
    | [k1, k2] => .ok (Json.str k1, Json.str k2)
    | _ => .error .valueError
  | _ => .error .typeError

/-- `dict(sequence)` elementwise, raising at the first bad element. -/
def dictElems : List Json → Except PyErr (List (Json × Json))
  | [] => .ok []
  | x :: rest =>
    match dictElem x with
    | .error e => .error e
    | .ok p =>
      match dictElems rest with
      | .error e => .error e
      | .ok ps => .ok (p :: ps)

/-- `dict(j)` — Python `dict()` coercion of a JSON value.  A dict copies;
a string yields `{}` when empty and `ValueError` otherwise (its elements
are length-1 characters); a list converts elementwise; `None`, numbers and
booleans are not iterable (`TypeError`).  The result is an association
list read with last-wins lookup. -/
def pyDict (j : Json) : Except PyErr (List (Json × Json)) :=
  match j with
  | .obj fields => .ok (fields.map (fun p => (Json.str p.1, p.2)))
  | .str s => if s = "" then .ok [] else .error .valueError
  | .arr xs => dictElems xs
  | _ => .error .typeError

/-- Last-wins lookup in a Python dict built as an association list. -/
def dictLookupLast (d : List (Json × Json)) (k : Json) : Option Json :=
  d.foldl (fun acc p => if p.1 = k then some p.2 else acc) none

/-- `list(j)` — Python `list()` coercion: a list copies, a string yields
its characters, a dict yields its keys, everything else raises
`TypeError`. -/
def pyList (j : Json) : Except PyErr (List Json) :=
  match j with
  | .arr xs => .ok xs
  | .str s => .ok (s.data.map (fun c => Json.str (String.mk [c])))
  | .obj fields => .ok ((dedupKeys fields).map Json.str)
  | _ => .error .typeError

/-- The `try: user_groups = list(dict(payload_dict)["cognito:groups"])
except (KeyError, TypeError): pass` block of `Authenticator.get_user_groups`
(authenticate.py:165-168): `KeyError`/`TypeError` are swallowed leaving
`[]`; a `ValueError` from `dict()` propagates. -/
def extract_user_groups (payload_dict : Json) : Except PyErr (List Json) :=
  match pyDict payload_dict with
  | .error .typeError => .ok []
  | .error e => .error e
  | .ok d =>
    match dictLookupLast d (Json.str "cognito:groups") with
    | none => .ok []
    | some v =>
      match pyList v with
      | .error .typeError => .ok []
      | .error e => .error e
      | .ok xs => .ok xs

/-- Python `str.split` with a single-character separator: every
occurrence splits, empty segments kept. -/
def splitOnChar (sep : Char) : List Char → List (List Char)
  | [] => [[]]
  | c :: rest =>
    let r := splitOnChar sep rest
    if c = sep then [] :: r
    else
      match r with
      | [] => [[c]]
      | g :: gs => (c :: g) :: gs

/-- `Authenticator.get_user_groups` (authenticate.py:150-169).  Only the
final dict/list coercions sit inside the `try`; unpacking into exactly
three dot-separated segments (`ValueError`), base64 decoding
(`binascii.Error`) and `json.loads` (`JSONDecodeError`) all raise. -/
def get_user_groups (id_token : String) : Except PyErr (List Json) :=
  if id_token = "" then .ok []
  else
    match splitOnChar '.' id_token.data with
    | [_, payload, _] =>
      match urlsafe_b64decode (pad_base64 (String.mk payload)) with
      | .error e => .error e
      | .ok bytes =>
        match json_loads_bytes bytes with
        | .error e => .error e
        | .ok payload_dict => extract_user_groups payload_dict
    | _ => .error .valueError

/-- `get_user_groups` applied to the raw JSON value returned by the token
exchange: `.split` on a non-string raises `AttributeError`. -/
def get_user_groups_json (id_token : Json) : Except PyErr (List Json) :=
  match id_token with
  | .str s => get_user_groups s
  | _ => .error .attributeError

/-- `Authenticator.get_user_info` (authenticate.py:110-131):
`json.loads(self.cookie_manager["tokens"]).get("access_token")` (a raw
`__getitem__`, so a missing key raises `KeyError`; `.get` on a non-dict
raises `AttributeError`); when the access token is truthy the userinfo
endpoint is called (modelled by the oracle `userinfo`, which may itself
raise), otherwise the function falls through returning `None`. -/
def get_user_info (userinfo : Json → Except PyErr Json) (cm : CookieManager) :
    Except PyErr (Option Json) :=
  match cm.data "tokens" with
  | none => .error .keyError
  | some t =>
    match t with
    | .obj fields =>
      match lookupLast fields "access_token" with
      | some av =>
        if pyTruthy av then
          match userinfo av with
          | .ok j => .ok (some j)
          | .error e => .error e
        else .ok none
      | none => .ok none
    | _ => .error .attributeError

/-- Verification failures raised by `cognitojwt.decode`: the source
catches `cognitojwt.exceptions.CognitoJWTException` and `jose.JWTError`,
which per spec section 4.4 cover bad signature, expiry, wrong audience and
malformed structure. -/
inductive CognitoJWTError where
  | badSignature
  | expired
  | wrongAudience
  | malformedStructure
  | joseJWTError
deriving DecidableEq, Repr

/-- Modelled from the spec: `cognitojwt.decode` is an external library,
specified at its interface boundary (spec section 4.4) as a pure function
of the token, the configuration (region, user-pool id, audience/client
id), the current time and the provider's published key set, returning the
verified claims or raising one of the verification failures. -/
abbrev DecodeOracle :=
  Json → String → String → String → Nat → List String → Except CognitoJWTError Json

/-- `Authenticator.verify_token` (authenticate.py:204-215): delegate to
`cognitojwt.decode(id_token, region, pool_id, client_id)`; success is
`True`, any of the caught verification failures is `False`. -/
def verify_token (dec : DecodeOracle) (region pool_id client_id : String)
    (now : Nat) (keys : List String) (id_token : Json) : Bool :=
  match dec id_token region pool_id client_id now keys with
  | .ok _ => true
  | .error _ => false

/-- `Authenticator.check_access` (authenticate.py:192-201):
`json.loads(self.cookie_manager.get("tokens"))` — `.get` yields the absent
sentinel `None` on a missing key and `json.loads(None)` raises
`TypeError`; otherwise, when the loaded value is not `None` and has both
token keys, the result is `verify_token` on the identity token, and the
function falls through to `None` in every other non-raising case. -/
def check_access (dec : DecodeOracle) (region pool_id client_id : String)
    (now : Nat) (keys : List String) (cm : CookieManager) :
    Except PyErr (Option Bool) :=
  match json_loads_get (cm.data "tokens") with
  | .error e => .error e
  | .ok t =>
    if t = Json.null then .ok none
    else
      match pyInStr "access_token" t with
      | .error e => .error e
      | .ok false => .ok none
      | .ok true =>
        match pyInStr "id_token" t with
        | .error e => .error e
        | .ok false => .ok none
        | .ok true =>
          match pyIndexStr t "id_token" with
          | .error e => .error e
          | .ok i => .ok (some (verify_token dec region pool_id client_id now keys i))

/-- `Authenticator.check_role` (authenticate.py:218-223): read the
persisted `user_groups`; `False` when absent, otherwise Python `in` on
the loaded value. -/
def check_role (cm : CookieManager) (role : String) : Except PyErr Bool :=
  match cm.data "user_groups" with
  | none => .ok false
  | some v => pyInStr role v

/-- The per-request environment `activate` runs against: the inbound query
parameters and the two provider endpoints as oracles. -/
structure Env where
  params : QueryParams
  token_endpoint : String → TokenEndpointResult
  userinfo_endpoint : Json → Except PyErr Json

/-- `Authenticator.activate` (authenticate.py:172-189): initialise the
session, extract the code, exchange it, extract groups; persist
`{access_token, id_token}` and `user_groups` and flush only when the
access token differs from `""`; finally attempt the userinfo fetch.
Returns the store as left by the writes performed so far together with the
normal result or the raised exception. -/
def activate (env : Env) (cm : CookieManager) :
    CookieManager × Except PyErr (Option Json) :=
  let cm1 := initialise_st_state_vars env.params cm
  match get_auth_code env.params with
  | .error e => (cm1, .error e)
  | .ok auth_code =>
    match get_user_tokens env.token_endpoint auth_code with
    | .error e => (cm1, .error e)
    | .ok (access_token, id_token) =>
      match get_user_groups_json id_token with
      | .error e => (cm1, .error e)
      | .ok user_groups =>
        let cm2 :=
          if access_token = Json.str "" then cm1
          else
            (((cm1.set "tokens"
                (Json.obj [("access_token", access_token), ("id_token", id_token)])).set
              "user_groups" (Json.arr user_groups)).save)
        (cm2, get_user_info env.userinfo_endpoint cm2)

/-! ### Concrete stores, environments and oracles used by the theorems -/

/-- A decode oracle that rejects every token as expired. -/
def decExpired : DecodeOracle := fun _ _ _ _ _ _ => .error .expired

/-- A token endpoint whose response carries both tokens but an empty
`id_token` string. -/
def envEmptyId : Env :=
  ⟨[], fun _ => .response 200
        (.ok (Json.obj [("access_token", Json.str "A"), ("id_token", Json.str "")])),
    fun _ => .ok Json.null⟩

/-- A token endpoint whose response carries a well-formed pair (the
identity token has three segments and a `{"foo":1}` payload). -/
def envPair : Env :=
  ⟨[], fun _ => .response 200
        (.ok (Json.obj [("access_token", Json.str "A"),
          ("id_token", Json.str "h.eyJmb28iOjF9.s")])),
    fun _ => .ok Json.null⟩

/-- A token endpoint whose response carries a non-empty access token and a
malformed (single-segment) identity token. -/
def envMalformedId : Env :=
  ⟨[], fun _ => .response 200
        (.ok (Json.obj [("access_token", Json.str "A"), ("id_token", Json.str "x")])),
    fun _ => .ok Json.null⟩

/-- A store holding only a `user_groups` list (no `tokens` key). -/
def cmGroupsOnly : CookieManager :=
  ⟨fun k => if k = "user_groups" then some (Json.arr [Json.str "admin"]) else none,
    fun _ => none⟩

/-- A store whose tokens object lacks the `id_token` field. -/
def cmHalfPair : CookieManager :=
  ⟨fun k => if k = "tokens" then some (Json.obj [("access_token", Json.str "A")]) else none,
    fun _ => none⟩

/-! ### C9 -/

/-- C9: for every input string, the output of `pad_base64` has length a
multiple of 4, and `pad_base64` is idempotent. -/
theorem c9_pad_base64_mod4_idempotent (s : String) :
    (pad_base64 s).length % 4 = 0 ∧ pad_base64 (pad_base64 s) = pad_base64 s := by
  have hnil : ∀ t : String, t.length % 4 = 0 → pad_base64 t = t := by
    intro t ht
    simp [pad_base64, ht]
  have hlen : ∀ t : String, (pad_base64 t).length % 4 = 0 := by
    intro t
    by_cases h : t.length % 4 = 0
    · rw [hnil t h]; exact h
    · simp only [pad_base64, ne_eq, h, not_false_iff, if_true, if_pos]
      have hmk : (String.mk (List.replicate (4 - t.length % 4) '=')).length =
          (List.replicate (4 - t.length % 4) '=').length := rfl
      rw [String.length_append, hmk, List.length_replicate]
      omega
  exact ⟨hlen s, hnil (pad_base64 s) (hlen s)⟩

/-! ### C1 -/

/-- C1 (amended): `get_user_tokens` returns the two values of the parsed
response body regardless of the HTTP status when both keys index
successfully, returns `("", "")` exactly when indexing either key raises
`KeyError`/`TypeError`, and propagates transport failures and non-JSON
bodies as exceptions. -/
theorem c1_get_user_tokens_cases (endpoint : String → TokenEndpointResult)
    (auth_code : String) :
    (endpoint auth_code = .transportFailure →
      get_user_tokens endpoint auth_code = .error .requestsError) ∧
    (∀ status, endpoint auth_code = .response status (.error ()) →
      get_user_tokens endpoint auth_code = .error .jsonDecodeError) ∧
    (∀ status j a i, endpoint auth_code = .response status (.ok j) →
      pyIndexStr j "access_token" = .ok a → pyIndexStr j "id_token" = .ok i →
      get_user_tokens endpoint auth_code = .ok (a, i)) ∧
    (∀ status j, endpoint auth_code = .response status (.ok j) →
      ((∃ e, pyIndexStr j "access_token" = .error e) ∨
        (∃ e, pyIndexStr j "id_token" = .error e)) →
      get_user_tokens endpoint auth_code = .ok (Json.str "", Json.str "")) := by
  refine ⟨?_, ?_, ?_, ?_⟩
  · intro h; simp [get_user_tokens, h]
  · intro status h; simp [get_user_tokens, h]
  · intro status j a i h ha hi; simp [get_user_tokens, h, ha, hi]
  · intro status j h he
    rcases he with ⟨e, he⟩ | ⟨e, he⟩
    · simp [get_user_tokens, h, he]
    · cases ha : pyIndexStr j "access_token" <;> simp [get_user_tokens, h, ha, he]

/-- C1 witness: a 400 response whose JSON body carries both tokens is
returned as-is, and a body missing `id_token` yields the sentinel. -/
theorem c1_get_user_tokens_witness :
    get_user_tokens (fun _ => .response 400
        (.ok (Json.obj [("access_token", Json.str "A"), ("id_token", Json.str "B")]))) "c" =
      .ok (Json.str "A", Json.str "B") ∧
    get_user_tokens (fun _ => .response 200
        (.ok (Json.obj [("access_token", Json.str "A")]))) "c" =
      .ok (Json.str "", Json.str "") := by
  constructor
  · exact (c1_get_user_tokens_cases (fun _ => .response 400
      (.ok (Json.obj [("access_token", Json.str "A"), ("id_token", Json.str "B")]))) "c").2.2.1
      400 (Json.obj [("access_token", Json.str "A"), ("id_token", Json.str "B")])
      (Json.str "A") (Json.str "B") rfl rfl rfl
  · exact (c1_get_user_tokens_cases (fun _ => .response 200
      (.ok (Json.obj [("access_token", Json.str "A")]))) "c").2.2.2
      200 (Json.obj [("access_token", Json.str "A")]) rfl
      (Or.inr ⟨PyErr.keyError, rfl⟩)

/-- C1 counterexample: a transport failure is raised to the caller, not
collapsed into `("", "")`. -/
theorem c1_transport_failure_raises :
    get_user_tokens (fun _ => TokenEndpointResult.transportFailure) "code123" =
      .error PyErr.requestsError ∧
    get_user_tokens (fun _ => TokenEndpointResult.transportFailure) "code123" ≠
      .ok (Json.str "", Json.str "") := by
  refine ⟨rfl, ?_⟩
  intro h
  exact Except.noConfusion h

/-! ### C4 -/

/-- C4: `verify_token` is a total boolean function of the token, the
configuration, the current time and the key set (so it never raises and
is deterministic in those inputs); every verification failure of the
modelled decode yields `false` and every success yields `true`. -/
theorem c4_verify_token_total (dec : DecodeOracle) (region pool_id client_id : String)
    (now : Nat) (keys : List String) (id_token : Json) :
    (∀ e, dec id_token region pool_id client_id now keys = .error e →
      verify_token dec region pool_id client_id now keys id_token = false) ∧
    (∀ c, dec id_token region pool_id client_id now keys = .ok c →
      verify_token dec region pool_id client_id now keys id_token = true) := by
  constructor
  · intro e h; simp [verify_token, h]
  · intro c h; simp [verify_token, h]

/-- C4 witness: an expired token verifies to `false`. -/
theorem c4_verify_token_witness :
    verify_token decExpired "r" "p" "c" 0 [] (Json.str "t") = false :=
  (c4_verify_token_total decExpired "r" "p" "c" 0 [] (Json.str "t")).1
    CognitoJWTError.expired rfl

/-! ### C6 -/

/-- C6 (amended): `get_auth_code` returns the first value of the parameter
literally named `code`, and `""` when it is absent; but a present `code`
parameter with an empty value list (never produced by the framework's
query parser) raises `IndexError` instead of returning `""`. -/
theorem c6_get_auth_code_cases (params : QueryParams) :
    (params.lookup "code" = none → get_auth_code params = .ok "") ∧
    (∀ v vs, params.lookup "code" = some (v :: vs) → get_auth_code params = .ok v) ∧
    (params.lookup "code" = some [] → get_auth_code params = .error .indexError) := by
  refine ⟨?_, ?_, ?_⟩
  · intro h; simp [get_auth_code, h]
  · intro v vs h; simp [get_auth_code, h]
  · intro h; simp [get_auth_code, h]

/-- C6 witness: a request with `code=abc` yields `"abc"`; one without
`code` yields `""`. -/
theorem c6_get_auth_code_witness :
    get_auth_code [("code", ["abc"])] = .ok "abc" ∧
    get_auth_code [("other", ["1"])] = .ok "" := by
  constructor
  · exact (c6_get_auth_code_cases [("code", ["abc"])]).2.1 "abc" [] rfl
  · exact (c6_get_auth_code_cases [("other", ["1"])]).1 rfl

/-- C6 counterexample: on the parameter map binding `code` to an empty
value list the operation fails with `IndexError` rather than returning a
string. -/
theorem c6_empty_code_list_raises :
    get_auth_code [("code", [])] = .error PyErr.indexError ∧
    get_auth_code [("code", [])] ≠ .ok "" := by
  refine ⟨rfl, ?_⟩
  intro h
  exact Except.noConfusion h

/-! ### C7 -/

/-- C7: `check_role` returns `false` when no `user_groups` value is
persisted or the persisted list is empty, and returns `true` exactly when
the role is an element of the persisted list. -/
theorem c7_check_role_membership (cm : CookieManager) (role : String) :
    (cm.data "user_groups" = none → check_role cm role = .ok false) ∧
    (∀ xs, cm.data "user_groups" = some (Json.arr xs) →
      (check_role cm role = .ok true ↔ Json.str role ∈ xs)) ∧
    (cm.data "user_groups" = some (Json.arr []) → check_role cm role = .ok false) := by
  refine ⟨?_, ?_, ?_⟩
  · intro h; simp [check_role, h]
  · intro xs h
    simp [check_role, h, pyInStr, List.any_eq_true, Json.beq_iff_eq]
  · intro h; simp [check_role, h, pyInStr]

/-- C7 witness: `"admin"` is granted exactly on the store persisting it. -/
theorem c7_check_role_witness :
    check_role cmGroupsOnly "admin" = .ok true ∧
    check_role cmEmpty "admin" = .ok false := by
  constructor
  · exact ((c7_check_role_membership cmGroupsOnly "admin").2.1
      [Json.str "admin"] rfl).mpr (List.mem_singleton.mpr rfl)
  · exact (c7_check_role_membership cmEmpty "admin").1 rfl

/-! ### C10 -/

/-- C10: when the persisted tokens object lacks either token key,
`check_access` returns `None` rather than a boolean; when the `tokens` key
is absent from the store entirely, `check_access` raises `TypeError`
(`json.loads` is applied to the absent-value sentinel before the `None`
guard can run). -/
theorem c10_check_access_partial_and_absent (dec : DecodeOracle)
    (region pool_id client_id : String) (now : Nat) (keys : List String)
    (cm : CookieManager) :
    (∀ fields, cm.data "tokens" = some (Json.obj fields) →
      lookupLast fields "access_token" = none ∨ lookupLast fields "id_token" = none →
      check_access dec region pool_id client_id now keys cm = .ok none) ∧
    (cm.data "tokens" = none →
      check_access dec region pool_id client_id now keys cm = .error .typeError) := by
  constructor
  · intro fields h hmiss
    rcases hmiss with hm | hm
    · simp [check_access, json_loads_get, h, pyInStr, hm]
    · cases ha : lookupLast fields "access_token" <;>
        simp [check_access, json_loads_get, h, pyInStr, hm, ha]
  · intro h
    simp [check_access, json_loads_get, h]

/-- C10 witness: a tokens object holding only `access_token` yields
`None`; a store with no `tokens` key at all raises `TypeError`. -/
theorem c10_check_access_witness :
    check_access decExpired "r" "p" "c" 0 [] cmHalfPair = .ok none ∧
    check_access decExpired "r" "p" "c" 0 [] cmEmpty = .error .typeError := by
  constructor
  · exact (c10_check_access_partial_and_absent decExpired "r" "p" "c" 0 [] cmHalfPair).1
      [("access_token", Json.str "A")] rfl (Or.inr rfl)
  · exact (c10_check_access_partial_and_absent decExpired "r" "p" "c" 0 [] cmEmpty).2 rfl

/-! ### C8 -/

/-- C8 (amended): `initialise_st_state_vars` treats the two session keys
independently: on a logout signal both are reset to the empty tokens pair
and empty groups; otherwise each key is reset exactly when it is itself
absent, and a present key is kept; all writes are then flushed.  (The
original claim — that an absent session key resets both values — fails
because an absent `tokens` key leaves a present `user_groups` value
untouched.) -/
theorem c8_initialise_per_key (params : QueryParams) (cm : CookieManager) :
    ((params.lookup "logout").isSome = true →
      (initialise_st_state_vars params cm).data "tokens" = some (Json.obj []) ∧
      (initialise_st_state_vars params cm).data "user_groups" = some (Json.arr [])) ∧
    (cm.data "tokens" = none →
      (initialise_st_state_vars params cm).data "tokens" = some (Json.obj [])) ∧
    (cm.data "user_groups" = none →
      (initialise_st_state_vars params cm).data "user_groups" = some (Json.arr [])) ∧
    (∀ v, params.lookup "logout" = none → cm.data "user_groups" = some v →
      (initialise_st_state_vars params cm).data "user_groups" = some v) ∧
    (initialise_st_state_vars params cm).saved = (initialise_st_state_vars params cm).data := by
  refine ⟨?_, ?_, ?_, ?_, ?_⟩
  · intro h
    cases hl : List.lookup "logout" params with
    | none => rw [hl] at h; simp at h
    | some _ =>
      simp [initialise_st_state_vars, CookieManager.save, CookieManager.set,
        CookieManager.contains, hl]
  · intro h
    cases hl : List.lookup "logout" params <;>
      simp [initialise_st_state_vars, CookieManager.save, CookieManager.set,
        CookieManager.contains, h, hl] <;>
      try (split <;> simp [h])
  · intro h
    cases hl : List.lookup "logout" params <;>
      simp [initialise_st_state_vars, CookieManager.save, CookieManager.set,
        CookieManager.contains, h, hl] <;>
      try (split <;> simp [h])
  · intro v hlo h
    simp [initialise_st_state_vars, CookieManager.save, CookieManager.set,
      CookieManager.contains, h, hlo]
    try (split <;> simp [h])
  · simp [initialise_st_state_vars, CookieManager.save]

/-- C8 witness: on a logout request, both keys reset regardless of the
prior store. -/
theorem c8_initialise_witness :
    (initialise_st_state_vars [("logout", ["true"])] cmGroupsOnly).data "tokens" =
      some (Json.obj []) ∧
    (initialise_st_state_vars [("logout", ["true"])] cmGroupsOnly).data "user_groups" =
      some (Json.arr []) :=
  (c8_initialise_per_key [("logout", ["true"])] cmGroupsOnly).1 rfl

/-- C8 counterexample: with no logout signal, a store whose `tokens` key
is absent but whose `user_groups` key is present gets its tokens reset
while the groups survive — the operation does not reset the session as a
whole. -/
theorem c8_groups_survive_missing_tokens :
    (initialise_st_state_vars [] cmGroupsOnly).data "tokens" = some (Json.obj []) ∧
    (initialise_st_state_vars [] cmGroupsOnly).data "user_groups" =
      some (Json.arr [Json.str "admin"]) := ⟨rfl, rfl⟩

/-! ### C2 -/

/-- Helper: the only `tokens` value `initialise_st_state_vars` can
introduce is the empty object. -/
theorem initialise_tokens_sources (params : QueryParams) (cm : CookieManager) (v : Json)
    (h : (initialise_st_state_vars params cm).data "tokens" = some v) :
    cm.data "tokens" = some v ∨ v = Json.obj [] := by
  simp only [initialise_st_state_vars, CookieManager.save, CookieManager.set,
    CookieManager.contains] at h
  split at h <;> split at h <;>
    (try simp at h) <;>
    first
      | (left; exact h)
      | (right; exact h.symm)

/-- C2 (amended): every `tokens` value present in the store after
`activate` was either already present before the call, or is the empty
object, or is a two-field `{access_token, id_token}` pair whose
`access_token` is not the empty string.  In particular a pair holding only
one of the two keys is never written; the `id_token` field, however, is
not guarded and may be the empty string. -/
theorem c2_tokens_pair_writes (env : Env) (cm : CookieManager) (v : Json)
    (h : ((activate env cm).1).data "tokens" = some v) :
    cm.data "tokens" = some v ∨ v = Json.obj [] ∨
      ∃ a i, v = Json.obj [("access_token", a), ("id_token", i)] ∧ a ≠ Json.str "" := by
  have hinit : ∀ hv : (initialise_st_state_vars env.params cm).data "tokens" = some v,
      cm.data "tokens" = some v ∨ v = Json.obj [] ∨
        ∃ a i, v = Json.obj [("access_token", a), ("id_token", i)] ∧ a ≠ Json.str "" := by
    intro hv
    rcases initialise_tokens_sources env.params cm v hv with h1 | h1
    · exact Or.inl h1
    · exact Or.inr (Or.inl h1)
  simp only [activate] at h
  split at h
  · exact hinit h
  · split at h
    · exact hinit h
    · split at h
      · exact hinit h
      · split at h
        · exact hinit h
        · rename_i hA
          simp only [CookieManager.save, CookieManager.set, String.reduceEq,
            if_false, if_true, Option.some.injEq] at h
          exact Or.inr (Or.inr ⟨_, _, h.symm, hA⟩)

/-- C2 witness: a response carrying `access_token = "A"` and a
three-segment identity token leads to a store whose `tokens` value is one
of the permitted write shapes. -/
theorem c2_tokens_pair_writes_witness :
    cmEmpty.data "tokens" =
        some (Json.obj [("access_token", Json.str "A"),
          ("id_token", Json.str "h.eyJmb28iOjF9.s")]) ∨
      Json.obj [("access_token", Json.str "A"),
          ("id_token", Json.str "h.eyJmb28iOjF9.s")] = Json.obj [] ∨
      ∃ a i, Json.obj [("access_token", Json.str "A"),
          ("id_token", Json.str "h.eyJmb28iOjF9.s")] =
          Json.obj [("access_token", a), ("id_token", i)] ∧ a ≠ Json.str "" :=
  c2_tokens_pair_writes envPair cmEmpty
    (Json.obj [("access_token", Json.str "A"),
      ("id_token", Json.str "h.eyJmb28iOjF9.s")]) (by decide)

/-- C2 counterexample: a provider response with a non-empty access token
and an empty `id_token` string gets persisted (and flushed) as a pair
whose `id_token` field is empty, so a present pair does not guarantee both
fields non-empty. -/
theorem c2_empty_id_token_persisted :
    ((activate envEmptyId cmEmpty).1).saved "tokens" =
      some (Json.obj [("access_token", Json.str "A"), ("id_token", Json.str "")]) := rfl

/-! ### C3 -/

/-- C3 (amended): `activate` persists the `{access_token, id_token}` pair
and `user_groups`, then flushes, exactly when the exchange yielded an
access token different from `""` and the group extraction on the identity
token did not raise; when the exchange yields an empty access token the
store is left exactly as `initialise_st_state_vars` left it; and on a
fresh visit with no `code` parameter and no prior session, `activate`
leaves the persisted tokens empty and returns no profile. -/
theorem c3_activate_persists_iff (env : Env) (cm : CookieManager) :
    (∀ code a i g, get_auth_code env.params = .ok code →
      get_user_tokens env.token_endpoint code = .ok (a, i) →
      get_user_groups_json i = .ok g → a ≠ Json.str "" →
      ((activate env cm).1).data "tokens" =
          some (Json.obj [("access_token", a), ("id_token", i)]) ∧
      ((activate env cm).1).data "user_groups" = some (Json.arr g) ∧
      ((activate env cm).1).saved = ((activate env cm).1).data) ∧
    (∀ code i, get_auth_code env.params = .ok code →
      get_user_tokens env.token_endpoint code = .ok (Json.str "", i) →
      (activate env cm).1 = initialise_st_state_vars env.params cm) ∧
    (env.params = [] →
      get_user_tokens env.token_endpoint "" = .ok (Json.str "", Json.str "") →
      ((activate env cmEmpty).1).data "tokens" = some (Json.obj []) ∧
      ((activate env cmEmpty).1).data "user_groups" = some (Json.arr []) ∧
      (activate env cmEmpty).2 = .ok none) := by
  refine ⟨?_, ?_, ?_⟩
  · intro code a i g h1 h2 h3 h4
    simp only [activate, h1, h2, h3, if_neg h4, CookieManager.save, CookieManager.set,
      String.reduceEq, if_false, if_true]
    simp
  · intro code i h1 h2
    simp only [activate, h1, h2]
    cases h3 : get_user_groups_json i <;> simp
  · intro hp ht
    have hcode : get_auth_code ([] : QueryParams) = Except.ok "" := rfl
    have hgg : get_user_groups_json (Json.str "") = Except.ok [] := rfl
    simp only [activate, hp, hcode, ht, hgg]
    simp only [if_true]
    exact ⟨rfl, rfl, rfl⟩

/-- An environment presenting an authorization code whose exchange yields
a non-empty access token and a three-segment identity token. -/
def envWithCode : Env :=
  ⟨[("code", ["xyz"])],
    fun _ => .response 200
      (.ok (Json.obj [("access_token", Json.str "A"),
        ("id_token", Json.str "h.eyJmb28iOjF9.s")])),
    fun _ => .ok Json.null⟩

/-- C3 witness: a visit with a `code` whose exchange succeeds persists the
pair and the groups and flushes. -/
theorem c3_activate_persists_witness :
    ((activate envWithCode cmEmpty).1).data "tokens" =
        some (Json.obj [("access_token", Json.str "A"),
          ("id_token", Json.str "h.eyJmb28iOjF9.s")]) ∧
    ((activate envWithCode cmEmpty).1).data "user_groups" = some (Json.arr []) ∧
    ((activate envWithCode cmEmpty).1).saved = ((activate envWithCode cmEmpty).1).data :=
  (c3_activate_persists_iff envWithCode cmEmpty).1 "xyz" (Json.str "A")
    (Json.str "h.eyJmb28iOjF9.s") [] rfl rfl rfl (by decide)

/-- C3 counterexample: an exchange yielding a non-empty access token
together with a malformed (single-segment) identity token makes `activate`
raise before persisting anything — the exchange outcome alone does not
decide persistence. -/
theorem c3_nonempty_access_without_persist :
    get_user_tokens envMalformedId.token_endpoint "" =
      .ok (Json.str "A", Json.str "x") ∧
    ((activate envMalformedId cmEmpty).1).data "tokens" = some (Json.obj []) ∧
    ((activate envMalformedId cmEmpty).1).data "user_groups" = some (Json.arr []) ∧
    (activate envMalformedId cmEmpty).2 = .error PyErr.valueError :=
  ⟨rfl, rfl, rfl, rfl⟩

/-! ### C5 -/

/-- C5 (amended): `get_user_groups` returns `[]` on the empty token; on a
decoded payload it returns `[]` when the group claim is absent or when
`dict()` on the payload raises `TypeError`, and the claim's list itself
(in claim order) when present; concrete three-segment tokens with a
`{"cognito:groups": ["a","b"]}` payload and with a claim-free payload
behave accordingly.  (Payloads that fail base64 or JSON parsing raise
instead of yielding `[]` — see the counterexample.) -/
theorem c5_get_user_groups_claims (j : Json) :
    (get_user_groups "" = .ok []) ∧
    (∀ d, pyDict j = .ok d →
      dictLookupLast d (Json.str "cognito:groups") = none →
      extract_user_groups j = .ok []) ∧
    (∀ d xs, pyDict j = .ok d →
      dictLookupLast d (Json.str "cognito:groups") = some (Json.arr xs) →
      extract_user_groups j = .ok xs) ∧
    (pyDict j = .error PyErr.typeError → extract_user_groups j = .ok []) ∧
    (get_user_groups "h.eyJjb2duaXRvOmdyb3VwcyI6WyJhIiwiYiJdfQ.s" =
      .ok [Json.str "a", Json.str "b"]) ∧
    (get_user_groups "h.eyJmb28iOjF9.s" = .ok []) := by
  refine ⟨rfl, ?_, ?_, ?_, rfl, rfl⟩
  · intro d h1 h2
    simp [extract_user_groups, h1, h2]
  · intro d xs h1 h2
    simp [extract_user_groups, h1, h2, pyList]
  · intro h1
    simp [extract_user_groups, h1]

/-- C5 witness: a payload object carrying `cognito:groups = ["a","b"]`
extracts exactly that list in order. -/
theorem c5_get_user_groups_witness :
    extract_user_groups
        (Json.obj [("cognito:groups", Json.arr [Json.str "a", Json.str "b"])]) =
      .ok [Json.str "a", Json.str "b"] :=
  (c5_get_user_groups_claims
      (Json.obj [("cognito:groups", Json.arr [Json.str "a", Json.str "b"])])).2.2.1
    [(Json.str "cognito:groups", Json.arr [Json.str "a", Json.str "b"])]
    [Json.str "a", Json.str "b"] rfl rfl

/-- C5 counterexample: a three-segment token whose payload decodes to
bytes that are not JSON (`"abc"`) makes `get_user_groups` raise
`json.JSONDecodeError` instead of returning an empty sequence. -/
theorem c5_unparsable_payload_raises :
    get_user_groups "h.YWJj.s" = .error PyErr.jsonDecodeError ∧
    get_user_groups "h.YWJj.s" ≠ .ok [] := by
  refine ⟨rfl, ?_⟩
  intro h
  exact Except.noConfusion h

end StAuth
